import Mathlib

/-!
Shallow embedding of the metrics-service repository: the AIRequest /
SalesTransaction / PerformanceSample data model, the ingestion handlers
(POST /ai-tracking/track, PUT /ai-tracking/update, POST /analytics/sales/track,
POST /performance/track), the aggregation statics (getStats, getSalesStats,
getRevenueByPlan, getMRR, getPerformanceStats), the stats/history route
filter handling, and the period-comparison helper calculatePercentageChange.

Conventions: Mongo documents are Lean structures, a collection is a
`List` of documents, timestamps are `Nat` milliseconds, JS numbers that
take part in division are `Rat`, and the process-wide Prometheus registry
is modelled as an append-only log of mutations (a counter's value is the
number of matching log entries, so "no mutation" is "log unchanged").
-/

/-- Token usage sub-document of an AIRequest (tokens.input/output/total). -/
structure Tokens where
  input : Nat
  output : Nat
  total : Nat
deriving DecidableEq, Repr

/-- performance sub-document of an AIRequest. `endTime`/`duration` are unset
until the update path fills them. -/
structure PerfInfo where
  startTime : Nat
  endTime : Option Nat
  duration : Option Int
deriving DecidableEq, Repr

/-- An AIRequest document (model AIRequest, src/unnamed/part_002). The
metadata sub-document is flattened to its feature/complexity/language fields. -/
structure AIRequestRec where
  userId : String
  requestId : String
  model : String
  prompt : String
  response : Option String
  tokens : Tokens
  cost : Rat
  status : String
  errorInfo : Option String
  feature : String
  complexity : String
  language : String
  userPlan : String
  performance : PerfInfo
  createdAt : Nat
deriving DecidableEq, Repr

/-- aiRequestSchema.pre('save'): recomputes tokens.total = input + output on
every save (src/unnamed/part_002:118-122). -/
def preSave (r : AIRequestRec) : AIRequestRec :=
  { r with tokens := { r.tokens with total := r.tokens.input + r.tokens.output } }

/-- A SalesTransaction document (model SalesAnalytics,
src/src/models/PerformanceMetrics.js:553-662 of the concatenated models file).
Only the refund.amount part of the refund sub-document is kept (the only part
read by an aggregation). -/
structure SalesRec where
  userId : String
  transactionId : String
  type : String
  plan : String
  amount : Rat
  currency : String
  status : String
  paymentMethod : Option String
  refundAmount : Option Rat
  createdAt : Nat
deriving DecidableEq, Repr

/-- A PerformanceMetrics document (src/src/models/PerformanceMetrics.js).
The system sub-document is kept as its three percentage fields, each
optional as in the schema. -/
structure PerfRec where
  service : String
  endpoint : String
  method : String
  userId : Option String
  requestId : String
  statusCode : Nat
  responseTime : Rat
  requestSize : Rat
  responseSize : Rat
  sysCpu : Option Rat
  sysMem : Option Rat
  sysDisk : Option Rat
  timestamp : Nat
deriving DecidableEq, Repr

/-- One mutation of the live Prometheus registry (src/src/utils/prometheus.js).
The registry is modelled as the log of mutations applied to it. -/
inductive Mutation where
  | aiRequest (model status feature userPlan : String)
  | aiDuration (model feature userPlan : String) (seconds : Rat)
  | aiTokens (model tokenType userPlan : String) (count : Nat)
  | aiCost (model userPlan : String) (cost : Rat)
  | salesTransaction (type status plan : String) (paymentMethod : Option String)
  | salesRevenue (type plan currency : String) (amount : Rat)
  | httpCount (service endpoint method : String) (statusCode : Nat)
  | httpDuration (service endpoint method : String) (statusCode : Nat) (seconds : Rat)
  | sysGauge (service : String) (cpu mem disk : Rat)
  | dbGauge (service : String) (active idle total : Rat)
  | cacheGauge (service cacheType : String) (hitRate : Rat)
deriving DecidableEq, Repr

/-- `xs.contains x` check for an optional field validated only when present
(express-validator `.optional().isIn(...)`). -/
def optIn (o : Option String) (xs : List String) : Bool :=
  match o with
  | some s => xs.contains s
  | none => true

/-! ## POST /ai-tracking/track (src/src/routes/aiTracking.js:11-90) -/

/-- Request body of POST /ai-tracking/track. Optional fields carry their
route-level defaults via `getD` at use sites. -/
structure TrackBody where
  requestId : String
  model : String
  prompt : String
  feature : Option String := none
  complexity : Option String := none
  language : Option String := none
  userPlan : Option String := none
deriving DecidableEq, Repr

/-- express-validator chain of POST /ai-tracking/track. -/
def validTrackBody (b : TrackBody) : Bool :=
  b.requestId != "" &&
  ["gpt-4", "gpt-3.5-turbo", "claude-3", "gemini-pro", "custom"].contains b.model &&
  b.prompt != "" &&
  optIn b.feature ["artwork-analysis", "style-recommendation", "market-analysis", "portfolio-review", "other"] &&
  optIn b.complexity ["simple", "medium", "complex"] &&
  optIn b.userPlan ["free", "basic", "premium"]

/-- The document built by POST /ai-tracking/track before save:
status pending, performance.startTime = now, route defaults applied. -/
def newAIRequest (now : Nat) (callerId : String) (b : TrackBody) : AIRequestRec :=
  { userId := callerId
    requestId := b.requestId
    model := b.model
    prompt := b.prompt
    response := none
    tokens := ⟨0, 0, 0⟩
    cost := 0
    status := "pending"
    errorInfo := none
    feature := b.feature.getD "other"
    complexity := b.complexity.getD "medium"
    language := b.language.getD "en"
    userPlan := b.userPlan.getD "free"
    performance := ⟨now, none, none⟩
    createdAt := now }

/-- Outcome of POST /ai-tracking/track: HTTP result plus the durable store
and registry after the call. -/
inductive TrackResult where
  | created (requestId : String)
  | validationError
  | conflict
  | serverError
deriving DecidableEq, Repr

/-- Whether the result is the 201 success case. -/
def TrackResult.isCreated : TrackResult → Bool
  | .created _ => true
  | _ => false

structure TrackOutcome where
  result : TrackResult
  store : List AIRequestRec
  registry : List Mutation
deriving DecidableEq, Repr

/-- POST /ai-tracking/track: validate, reject duplicate requestId with 409,
save (`saveOk` models whether the durable write succeeds; a failed write is
caught and answered 500), then increment ai_requests_total once. -/
def trackAI (now : Nat) (callerId : String) (b : TrackBody) (saveOk : Bool)
    (store : List AIRequestRec) (reg : List Mutation) : TrackOutcome :=
  if validTrackBody b then
    if store.any (fun r => r.requestId == b.requestId) then
      ⟨.conflict, store, reg⟩
    else if saveOk then
      let r := preSave (newAIRequest now callerId b)
      ⟨.created r.requestId, store ++ [r],
        reg ++ [Mutation.aiRequest b.model "pending" (b.feature.getD "other") (b.userPlan.getD "free")]⟩
    else ⟨.serverError, store, reg⟩
  else ⟨.validationError, store, reg⟩

/-! ## PUT /ai-tracking/update/:requestId (src/src/routes/aiTracking.js:93-179) -/

/-- Request body of the update route. -/
structure UpdateBody where
  status : String
  response : Option String := none
  tokens : Option Tokens := none
  cost : Option Rat := none
  errorInfo : Option String := none
deriving DecidableEq, Repr

/-- express-validator chain of the update route: status must be one of the
four non-pending states. -/
def validUpdateBody (b : UpdateBody) : Bool :=
  ["processing", "completed", "failed", "cancelled"].contains b.status

/-- AIRequest.findOne({ requestId, userId }): requestId AND owning actor. -/
def findAI (rid callerId : String) (s : List AIRequestRec) : Option AIRequestRec :=
  s.find? (fun r => r.requestId == rid && r.userId == callerId)

/-- The field mutation performed by the update handler on the found document,
followed by the pre-save hook. JS truthiness is kept: an empty-string
response and a zero cost are not applied; endTime/duration are set exactly
when the new status is completed or failed. -/
def applyUpdate (now : Nat) (b : UpdateBody) (r0 : AIRequestRec) : AIRequestRec :=
  let r1 : AIRequestRec :=
    { r0 with
      status := b.status
      response := match b.response with
        | some s => if s == "" then r0.response else some s
        | none => r0.response
      tokens := b.tokens.getD r0.tokens
      cost := match b.cost with
        | some c => if c == 0 then r0.cost else c
        | none => r0.cost
      errorInfo := match b.errorInfo with
        | some e => some e
        | none => r0.errorInfo }
  let r2 : AIRequestRec :=
    if b.status == "completed" || b.status == "failed" then
      { r1 with performance :=
          { r1.performance with
            endTime := some now
            duration := some ((now : Int) - (r1.performance.startTime : Int)) } }
    else r1
  preSave r2

/-- Replace the first element satisfying `p` (the save of the found
document back into its collection). -/
def replaceFirst (p : AIRequestRec → Bool) (x : AIRequestRec) :
    List AIRequestRec → List AIRequestRec
  | [] => []
  | y :: ys => if p y then x :: ys else y :: replaceFirst p x ys

/-- Registry mutations performed after a successful update save
(src/src/routes/aiTracking.js:146-159): always one ai_requests_total
increment; when the new status is completed, additionally a duration
observation and token/cost increments guarded by JS truthiness. -/
def updateMutations (b : UpdateBody) (r3 : AIRequestRec) : List Mutation :=
  [Mutation.aiRequest r3.model b.status r3.feature r3.userPlan] ++
  (if b.status == "completed" then
    [Mutation.aiDuration r3.model r3.feature r3.userPlan
      (((r3.performance.duration.getD 0 : Int) : Rat) / 1000)] ++
    (if r3.tokens.input != 0 then
      [Mutation.aiTokens r3.model "input" r3.userPlan r3.tokens.input] else []) ++
    (if r3.tokens.output != 0 then
      [Mutation.aiTokens r3.model "output" r3.userPlan r3.tokens.output] else []) ++
    (if r3.cost != 0 then [Mutation.aiCost r3.model r3.userPlan r3.cost] else [])
  else [])

inductive UpdateResult where
  | updated (requestId status : String)
  | validationError
  | notFound
  | serverError
deriving DecidableEq, Repr

structure UpdateOutcome where
  result : UpdateResult
  saved : Option AIRequestRec
  store : List AIRequestRec
  registry : List Mutation
deriving DecidableEq, Repr

/-- PUT /ai-tracking/update/:requestId: validate, find by requestId + owner
(404 otherwise), apply the partial update and pre-save hook, persist
(`saveOk` models durable-write success), then mutate the registry. -/
def updateAI (now : Nat) (callerId rid : String) (b : UpdateBody) (saveOk : Bool)
    (store : List AIRequestRec) (reg : List Mutation) : UpdateOutcome :=
  if validUpdateBody b then
    match findAI rid callerId store with
    | none => ⟨.notFound, none, store, reg⟩
    | some r0 =>
      if saveOk then
        let r3 := applyUpdate now b r0
        ⟨.updated r3.requestId r3.status, some r3,
          replaceFirst (fun r => r.requestId == rid && r.userId == callerId) r3 store,
          reg ++ updateMutations b r3⟩
      else ⟨.serverError, none, store, reg⟩
  else ⟨.validationError, none, store, reg⟩

/-! ## POST /analytics/sales/track (src/unnamed/part_003:112-201) -/

/-- Request body of POST /analytics/sales/track. -/
structure SalesBody where
  transactionId : String
  type : String
  amount : Rat
  currency : Option String := none
  status : String
  paymentMethod : Option String := none
  plan : Option String := none
  refundAmount : Option Rat := none
deriving DecidableEq, Repr

/-- express-validator chain of POST /analytics/sales/track. -/
def validSalesBody (b : SalesBody) : Bool :=
  b.transactionId != "" &&
  ["subscription", "one_time", "refund", "credit", "debit"].contains b.type &&
  ["pending", "completed", "failed", "cancelled", "refunded"].contains b.status &&
  optIn b.paymentMethod ["stripe", "paypal", "apple_pay", "google_pay", "bank_transfer", "crypto"] &&
  optIn b.plan ["free", "basic", "premium"]

/-- The SalesAnalytics document built before save, with route defaults. -/
def newSalesRec (now : Nat) (callerId : String) (b : SalesBody) : SalesRec :=
  { userId := callerId
    transactionId := b.transactionId
    type := b.type
    plan := b.plan.getD "free"
    amount := b.amount
    currency := b.currency.getD "USD"
    status := b.status
    paymentMethod := b.paymentMethod
    refundAmount := b.refundAmount
    createdAt := now }

/-- Registry mutations after a successful sales save: one transaction
counter increment, plus a revenue increment only when status is completed
(src/unnamed/part_003:176-180). -/
def salesMutations (b : SalesBody) : List Mutation :=
  [Mutation.salesTransaction b.type b.status (b.plan.getD "free") b.paymentMethod] ++
  (if b.status == "completed" then
    [Mutation.salesRevenue b.type (b.plan.getD "free") (b.currency.getD "USD") b.amount]
  else [])

structure SalesOutcome where
  result : TrackResult
  store : List SalesRec
  registry : List Mutation
deriving DecidableEq, Repr

/-- POST /analytics/sales/track: validate, reject duplicate transactionId
with 409, save, then mutate the registry. -/
def trackSales (now : Nat) (callerId : String) (b : SalesBody) (saveOk : Bool)
    (store : List SalesRec) (reg : List Mutation) : SalesOutcome :=
  if validSalesBody b then
    if store.any (fun r => r.transactionId == b.transactionId) then
      ⟨.conflict, store, reg⟩
    else if saveOk then
      ⟨.created b.transactionId, store ++ [newSalesRec now callerId b],
        reg ++ salesMutations b⟩
    else ⟨.serverError, store, reg⟩
  else ⟨.validationError, store, reg⟩

/-! ## POST /performance/track (src/src/routes/performance.js) -/

/-- Request body of POST /performance/track. The optional system, database
and cache sub-objects are kept as the tuples of the fields the handler reads. -/
structure PerfBody where
  service : String
  endpoint : String
  method : String
  statusCode : Nat
  responseTime : Rat
  requestSize : Option Rat := none
  responseSize : Option Rat := none
  system : Option (Rat × Rat × Rat) := none
  database : Option (Rat × Rat × Rat) := none
  cache : Option Rat := none
deriving DecidableEq, Repr

/-- express-validator chain of POST /performance/track. -/
def validPerfBody (b : PerfBody) : Bool :=
  ["auth", "database", "payment", "metrics", "frontend", "ai-service"].contains b.service &&
  b.endpoint != "" &&
  ["GET", "POST", "PUT", "PATCH", "DELETE"].contains b.method &&
  decide (100 ≤ b.statusCode) && decide (b.statusCode ≤ 599)

/-- The PerformanceMetrics document built before save. `osSys` is the
process-local system snapshot used when the body carries no system object
(`system: system || getSystemMetrics()`). -/
def newPerfRec (now : Nat) (userId : Option String) (rid : String)
    (osSys : Rat × Rat × Rat) (b : PerfBody) : PerfRec :=
  let sys := b.system.getD osSys
  { service := b.service
    endpoint := b.endpoint
    method := b.method
    userId := userId
    requestId := rid
    statusCode := b.statusCode
    responseTime := b.responseTime
    requestSize := b.requestSize.getD 0
    responseSize := b.responseSize.getD 0
    sysCpu := some sys.1
    sysMem := some sys.2.1
    sysDisk := some sys.2.2
    timestamp := now }

/-- Registry mutations after a successful performance save:
recordHttpRequest (counter increment plus duration observation in seconds),
then conditional system/database/cache gauge sets. -/
def perfMutations (b : PerfBody) : List Mutation :=
  [Mutation.httpCount b.service b.endpoint b.method b.statusCode,
   Mutation.httpDuration b.service b.endpoint b.method b.statusCode (b.responseTime / 1000)] ++
  (match b.system with
   | some (c, m, d) => [Mutation.sysGauge b.service c m d]
   | none => []) ++
  (match b.database with
   | some (a, i, t) => [Mutation.dbGauge b.service a i t]
   | none => []) ++
  (match b.cache with
   | some h => [Mutation.cacheGauge b.service "redis" h]
   | none => [])

structure PerfOutcome where
  result : TrackResult
  store : List PerfRec
  registry : List Mutation
deriving DecidableEq, Repr

/-- POST /performance/track: validate, save (no route-level duplicate
check; a duplicate-key write error from the store is a failed save,
caught and answered 500), then mutate the registry. -/
def trackPerformance (now : Nat) (userId : Option String) (rid : String)
    (osSys : Rat × Rat × Rat) (b : PerfBody) (saveOk : Bool)
    (store : List PerfRec) (reg : List Mutation) : PerfOutcome :=
  if validPerfBody b then
    if saveOk then
      ⟨.created rid, store ++ [newPerfRec now userId rid osSys b], reg ++ perfMutations b⟩
    else ⟨.serverError, store, reg⟩
  else ⟨.validationError, store, reg⟩

/-! ## Filter matching and aggregation statics -/

/-- Mongo $avg over the values present: null (none) when no value exists. -/
def mongoAvg (l : List Rat) : Option Rat :=
  if l.isEmpty then none else some (l.sum / (l.length : Rat))

/-- An exact-match dimension filter applied only when present. -/
def optEq (f : Option String) (v : String) : Bool :=
  match f with
  | some x => x == v
  | none => true

/-- Same for a field that is itself optional in the document. -/
def optEqO (f : Option String) (v : Option String) : Bool :=
  match f with
  | some x => v == some x
  | none => true

/-- `timestamp.$gte` bound, applied only when a startDate filter is present. -/
def dateLB (f : Option Nat) (t : Nat) : Bool :=
  match f with
  | some d => decide (d ≤ t)
  | none => true

/-- `timestamp.$lte` bound, applied only when an endDate filter is present. -/
def dateUB (f : Option Nat) (t : Nat) : Bool :=
  match f with
  | some d => decide (t ≤ d)
  | none => true

/-- Filter set accepted by AIRequest.getStats (src/unnamed/part_002:125-138). -/
structure AIFilters where
  userId : Option String := none
  status : Option String := none
  model : Option String := none
  userPlan : Option String := none
  feature : Option String := none
  startDate : Option Nat := none
  endDate : Option Nat := none
deriving DecidableEq, Repr

/-- The $match stage built by AIRequest.getStats. -/
def aiMatch (f : AIFilters) (r : AIRequestRec) : Bool :=
  optEq f.userId r.userId && optEq f.status r.status && optEq f.model r.model &&
  optEq f.userPlan r.userPlan && optEq f.feature r.feature &&
  dateLB f.startDate r.createdAt && dateUB f.endDate r.createdAt

/-- The single aggregate row returned by AIRequest.getStats. -/
structure AIStatsResult where
  totalRequests : Nat
  totalTokens : Nat
  totalCost : Rat
  avgDuration : Option Rat
  successCount : Nat
  failureCount : Nat
deriving DecidableEq, Repr

/-- The `stats[0] || {...}` fallback of AIRequest.getStats: every field 0. -/
def zeroAIStats : AIStatsResult :=
  { totalRequests := 0, totalTokens := 0, totalCost := 0,
    avgDuration := some 0, successCount := 0, failureCount := 0 }

/-- AIRequest.getStats (src/unnamed/part_002:125-167): one $group pass over
the matching set, with the zero fallback when no record matches. -/
def getStats (f : AIFilters) (s : List AIRequestRec) : AIStatsResult :=
  let m := s.filter (aiMatch f)
  if m.isEmpty then zeroAIStats
  else
    { totalRequests := m.length
      totalTokens := (m.map (fun r => r.tokens.total)).sum
      totalCost := (m.map (fun r => r.cost)).sum
      avgDuration := mongoAvg (m.filterMap (fun r => r.performance.duration.map (fun d => (d : Rat))))
      successCount := (m.filter (fun r => r.status == "completed")).length
      failureCount := (m.filter (fun r => r.status == "failed")).length }

/-! ## GET /ai-tracking/stats (src/src/routes/aiTracking.js:182-217) -/

/-- The query string of GET /ai-tracking/stats. The route validates the
listed parameters but forwards every query parameter, so a caller-supplied
userId travels along with the rest. -/
structure AIStatsQuery where
  userId : Option String := none
  startDate : Option Nat := none
  endDate : Option Nat := none
  model : Option String := none
  feature : Option String := none
  status : Option String := none
  userPlan : Option String := none
deriving DecidableEq, Repr

/-- The filter object built at src/src/routes/aiTracking.js:199-202:
`{ userId: req.user.id, ...req.query }` — the spread of the caller's query
comes after the scope field, so a caller-supplied userId replaces it. -/
def mergeAIStatsFilters (callerId : String) (q : AIStatsQuery) : AIFilters :=
  { userId := some (q.userId.getD callerId)
    status := q.status
    model := q.model
    userPlan := q.userPlan
    feature := q.feature
    startDate := q.startDate
    endDate := q.endDate }

/-- GET /ai-tracking/stats for an authenticated (standard-role) caller. -/
def aiStatsEndpoint (callerId : String) (q : AIStatsQuery) (s : List AIRequestRec) :
    AIStatsResult :=
  getStats (mergeAIStatsFilters callerId q) s

/-! ## GET /ai-tracking/history (src/src/routes/aiTracking.js:220-270) -/

/-- The query string of GET /ai-tracking/history. -/
structure HistoryQuery where
  page : Option Nat := none
  limit : Option Nat := none
  status : Option String := none
  model : Option String := none
  feature : Option String := none
deriving DecidableEq, Repr

/-- `parseInt(x) || d`: a missing or zero value falls back to the default. -/
def intOrDefault (o : Option Nat) (d : Nat) : Nat :=
  match o with
  | some n => if n == 0 then d else n
  | none => d

/-- The find() query of the history route: always the caller's own userId,
plus the optional status/model/feature dimensions. -/
def histMatch (callerId : String) (q : HistoryQuery) (r : AIRequestRec) : Bool :=
  r.userId == callerId && optEq q.status r.status && optEq q.model r.model &&
  optEq q.feature r.feature

/-- Stable insertion into a list sorted descending by createdAt. -/
def insertDesc (r : AIRequestRec) : List AIRequestRec → List AIRequestRec
  | [] => [r]
  | x :: xs => if r.createdAt > x.createdAt then r :: x :: xs else x :: insertDesc r xs

/-- `.sort({ createdAt: -1 })`. -/
def sortDesc : List AIRequestRec → List AIRequestRec
  | [] => []
  | x :: xs => insertDesc x (sortDesc xs)

/-- A history record after `.select('-prompt -response')`: the AIRequest
fields without the prompt and response. -/
structure HistoryEntry where
  userId : String
  requestId : String
  model : String
  tokens : Tokens
  cost : Rat
  status : String
  errorInfo : Option String
  feature : String
  complexity : String
  language : String
  userPlan : String
  performance : PerfInfo
  createdAt : Nat
deriving DecidableEq, Repr

/-- The projection applied to each returned record. -/
def toHistoryEntry (r : AIRequestRec) : HistoryEntry :=
  { userId := r.userId, requestId := r.requestId, model := r.model,
    tokens := r.tokens, cost := r.cost, status := r.status,
    errorInfo := r.errorInfo, feature := r.feature, complexity := r.complexity,
    language := r.language, userPlan := r.userPlan,
    performance := r.performance, createdAt := r.createdAt }

structure HistoryResponse where
  requests : List HistoryEntry
  page : Nat
  limit : Nat
  total : Nat
  pages : Nat
deriving DecidableEq, Repr

/-- GET /ai-tracking/history: scope to the caller, filter, sort by createdAt
descending, paginate, and project away prompt/response. -/
def historyEndpoint (callerId : String) (q : HistoryQuery) (s : List AIRequestRec) :
    HistoryResponse :=
  let page := intOrDefault q.page 1
  let limit := intOrDefault q.limit 20
  let skip := (page - 1) * limit
  let m := s.filter (histMatch callerId q)
  { requests := (((sortDesc m).drop skip).take limit).map toHistoryEntry
    page := page
    limit := limit
    total := m.length
    pages := (m.length + limit - 1) / limit }

/-- A record with its prompt and response texts blanked; two stores with the
same image under this map differ only in prompt/response contents. -/
def eraseSensitive (r : AIRequestRec) : AIRequestRec :=
  { r with prompt := "", response := none }

/-! ## Sales aggregation statics (SalesAnalytics model) -/

/-- Filter set accepted by SalesAnalytics.getSalesStats. -/
structure SalesFilters where
  userId : Option String := none
  status : Option String := none
  type : Option String := none
  plan : Option String := none
  paymentMethod : Option String := none
  currency : Option String := none
  startDate : Option Nat := none
  endDate : Option Nat := none
deriving DecidableEq, Repr

/-- The $match stage built by getSalesStats. -/
def salesMatch (f : SalesFilters) (r : SalesRec) : Bool :=
  optEq f.userId r.userId && optEq f.status r.status && optEq f.type r.type &&
  optEq f.plan r.plan && optEqO f.paymentMethod r.paymentMethod &&
  optEq f.currency r.currency && dateLB f.startDate r.createdAt &&
  dateUB f.endDate r.createdAt

/-- The single aggregate row returned by getSalesStats. -/
structure SalesStatsResult where
  totalTransactions : Nat
  totalRevenue : Rat
  avgTransactionValue : Option Rat
  successfulTransactions : Nat
  failedTransactions : Nat
  refundedTransactions : Nat
  totalRefunds : Rat
deriving DecidableEq, Repr

/-- The `stats[0] || {...}` fallback of getSalesStats. -/
def zeroSalesStats : SalesStatsResult :=
  { totalTransactions := 0, totalRevenue := 0, avgTransactionValue := some 0,
    successfulTransactions := 0, failedTransactions := 0,
    refundedTransactions := 0, totalRefunds := 0 }

/-- SalesAnalytics.getSalesStats (models file lines 671-718): note that
totalRevenue is `$sum: '$amount'` over the matching set with no status
restriction of its own. -/
def getSalesStats (f : SalesFilters) (s : List SalesRec) : SalesStatsResult :=
  let m := s.filter (salesMatch f)
  if m.isEmpty then zeroSalesStats
  else
    { totalTransactions := m.length
      totalRevenue := (m.map (fun r => r.amount)).sum
      avgTransactionValue := mongoAvg (m.map (fun r => r.amount))
      successfulTransactions := (m.filter (fun r => r.status == "completed")).length
      failedTransactions := (m.filter (fun r => r.status == "failed")).length
      refundedTransactions := (m.filter (fun r => r.status == "refunded")).length
      totalRefunds := (m.filterMap (fun r => r.refundAmount)).sum }

/-- Keep the first occurrence of every key, in order of first appearance
(the grouping key order used to model $group). -/
def dedupKeepFirst (l : List String) : List String :=
  l.foldl (fun acc x => if acc.contains x then acc else acc ++ [x]) []

/-- One group of the revenue-by-plan aggregation. -/
structure PlanRevenue where
  plan : String
  totalRevenue : Rat
  transactionCount : Nat
  avgTransactionValue : Option Rat
deriving DecidableEq, Repr

/-- Insertion into a list sorted descending by totalRevenue. -/
def insertByRevenue (x : PlanRevenue) : List PlanRevenue → List PlanRevenue
  | [] => [x]
  | y :: ys => if x.totalRevenue > y.totalRevenue then x :: y :: ys
               else y :: insertByRevenue x ys

/-- `$sort: { totalRevenue: -1 }` over the plan groups. -/
def sortByRevenue : List PlanRevenue → List PlanRevenue
  | [] => []
  | x :: xs => insertByRevenue x (sortByRevenue xs)

/-- The $group-by-plan stage of getRevenueByPlan. -/
def revenueGroups (m : List SalesRec) : List PlanRevenue :=
  (dedupKeepFirst (m.map (fun r => r.plan))).map (fun p =>
    let g := m.filter (fun r => r.plan == p)
    { plan := p
      totalRevenue := (g.map (fun r => r.amount)).sum
      transactionCount := g.length
      avgTransactionValue := mongoAvg (g.map (fun r => r.amount)) })

/-- SalesAnalytics.getRevenueByPlan (models file lines 721-742): matches
`{ status: 'completed' }` plus the optional date window, groups by plan,
sorts by revenue descending. -/
def getRevenueByPlan (f : SalesFilters) (s : List SalesRec) : List PlanRevenue :=
  sortByRevenue (revenueGroups (s.filter (fun r =>
    r.status == "completed" && dateLB f.startDate r.createdAt &&
    dateUB f.endDate r.createdAt)))

/-- One group of the top-revenue ranking (GET /metrics/top-metrics?metric=revenue). -/
structure UserRevenue where
  userId : String
  totalRevenue : Rat
  transactionCount : Nat
deriving DecidableEq, Repr

/-- Insertion into a list sorted descending by totalRevenue. -/
def insertByUserRevenue (x : UserRevenue) : List UserRevenue → List UserRevenue
  | [] => [x]
  | y :: ys => if x.totalRevenue > y.totalRevenue then x :: y :: ys
               else y :: insertByUserRevenue x ys

/-- `$sort: { totalRevenue: -1 }` over the user groups. -/
def sortByUserRevenue : List UserRevenue → List UserRevenue
  | [] => []
  | x :: xs => insertByUserRevenue x (sortByUserRevenue xs)

/-- getTopRevenue (src/src/routes/metrics.js:439-452): matches
`{ status: 'completed' }`, groups by userId, sorts by revenue descending,
takes the first `limit` groups. -/
def getTopRevenue (limit : Nat) (s : List SalesRec) : List UserRevenue :=
  (sortByUserRevenue
    ((dedupKeepFirst ((s.filter (fun r => r.status == "completed")).map (fun r => r.userId))).map
      (fun u =>
        let g := (s.filter (fun r => r.status == "completed")).filter (fun r => r.userId == u)
        { userId := u
          totalRevenue := (g.map (fun r => r.amount)).sum
          transactionCount := g.length }))).take limit

/-- The single row returned by getMRR. -/
structure MRRResult where
  mrr : Rat
  subscriptionCount : Nat
deriving DecidableEq, Repr

/-- SalesAnalytics.getMRR restricted to its $match/$group core (models file
lines 745-767). The source derives `lo`/`hi` as the calendar-month bounds of
the supplied date; the window arrives here already computed. Matches
completed subscription transactions inside the window; `mrr[0] || {...}`. -/
def getMRRWindow (lo hi : Nat) (s : List SalesRec) : MRRResult :=
  let m := s.filter (fun r =>
    r.status == "completed" && r.type == "subscription" &&
    decide (lo ≤ r.createdAt) && decide (r.createdAt ≤ hi))
  if m.isEmpty then { mrr := 0, subscriptionCount := 0 }
  else { mrr := (m.map (fun r => r.amount)).sum, subscriptionCount := m.length }

/-! ## PerformanceMetrics.getPerformanceStats (src/src/models/PerformanceMetrics.js:128-184) -/

/-- Filter set accepted by getPerformanceStats. -/
structure PerfFilters where
  service : Option String := none
  endpoint : Option String := none
  method : Option String := none
  statusCode : Option Nat := none
  userId : Option String := none
  startDate : Option Nat := none
  endDate : Option Nat := none
deriving DecidableEq, Repr

/-- Equality filter for an optional Nat-valued dimension. -/
def optEqN (f : Option Nat) (v : Nat) : Bool :=
  match f with
  | some x => x == v
  | none => true

/-- The $match stage built by getPerformanceStats. -/
def perfMatch (f : PerfFilters) (r : PerfRec) : Bool :=
  optEq f.service r.service && optEq f.endpoint r.endpoint &&
  optEq f.method r.method && optEqN f.statusCode r.statusCode &&
  optEqO f.userId r.userId && dateLB f.startDate r.timestamp &&
  dateUB f.endDate r.timestamp

/-- $min over a nonempty value list (0 on empty, a case the aggregate row
never exhibits because responseTime is required). -/
def listMin : List Rat → Rat
  | [] => 0
  | x :: xs => xs.foldl min x

/-- $max over a nonempty value list. -/
def listMax : List Rat → Rat
  | [] => 0
  | x :: xs => xs.foldl max x

/-- The single aggregate row returned by getPerformanceStats. -/
structure PerfStatsResult where
  totalRequests : Nat
  avgResponseTime : Option Rat
  minResponseTime : Rat
  maxResponseTime : Rat
  p95ResponseTime : Rat
  p99ResponseTime : Rat
  successCount : Nat
  errorCount : Nat
  totalRequestSize : Rat
  totalResponseSize : Rat
  avgCpuUsage : Option Rat
  avgMemoryUsage : Option Rat
  avgDiskUsage : Option Rat
deriving DecidableEq, Repr

/-- The `stats[0] || {...}` fallback of getPerformanceStats. -/
def zeroPerfStats : PerfStatsResult :=
  { totalRequests := 0, avgResponseTime := some 0, minResponseTime := 0,
    maxResponseTime := 0, p95ResponseTime := 0, p99ResponseTime := 0,
    successCount := 0, errorCount := 0, totalRequestSize := 0,
    totalResponseSize := 0, avgCpuUsage := some 0, avgMemoryUsage := some 0,
    avgDiskUsage := some 0 }

/-- getPerformanceStats. The p95/p99 fields are produced by the durable
store's built-in $percentile primitive, which is not part of this
repository; it enters the embedding as the `pctl` argument (percentile
value and matching responseTime multiset to aggregate result). Success and
error counts split at statusCode 400. -/
def getPerformanceStats (pctl : Nat → List Rat → Rat) (f : PerfFilters)
    (s : List PerfRec) : PerfStatsResult :=
  let m := s.filter (perfMatch f)
  let rts := m.map (fun r => r.responseTime)
  if m.isEmpty then zeroPerfStats
  else
    { totalRequests := m.length
      avgResponseTime := mongoAvg rts
      minResponseTime := listMin rts
      maxResponseTime := listMax rts
      p95ResponseTime := pctl 95 rts
      p99ResponseTime := pctl 99 rts
      successCount := (m.filter (fun r => decide (r.statusCode < 400))).length
      errorCount := (m.filter (fun r => decide (400 ≤ r.statusCode))).length
      totalRequestSize := (m.map (fun r => r.requestSize)).sum
      totalResponseSize := (m.map (fun r => r.responseSize)).sum
      avgCpuUsage := mongoAvg (m.filterMap (fun r => r.sysCpu))
      avgMemoryUsage := mongoAvg (m.filterMap (fun r => r.sysMem))
      avgDiskUsage := mongoAvg (m.filterMap (fun r => r.sysDisk)) }

/-! ## calculatePercentageChange (src/src/routes/metrics.js:454-468) -/

/-- A JSON value as far as the comparison route distinguishes them. -/
inductive JVal where
  | num (q : Rat)
  | str (s : String)
  | null
deriving DecidableEq, Repr

/-- A JSON object: an association list with the keys of a JS object
(unique, in insertion order). -/
def JObj := List (String × JVal)

/-- Property read `o[k]`. -/
def lookupJ (o : JObj) (k : String) : Option JVal :=
  (o.find? (fun kv => kv.1 == k)).map (fun kv => kv.2)

/-- The percentage-change formula: `(current − previous) / previous × 100`,
with the zero-previous convention of the source. -/
def pctChange (c p : Rat) : Rat :=
  if p = 0 then (if c > 0 then 100 else 0) else (c - p) / p * 100

/-- calculatePercentageChange: for every key of `current` whose value is a
number in both objects, emit the percentage change; other keys are skipped. -/
def calculatePercentageChange (current previous : JObj) : JObj :=
  current.filterMap (fun kv =>
    match kv.2, lookupJ previous kv.1 with
    | JVal.num c, some (JVal.num p) => some (kv.1, JVal.num (pctChange c p))
    | _, _ => none)

/-! ## Concrete sample data used by counterexamples and witnesses -/

/-- A completed AIRequest owned by alice. -/
def sampleAliceReq : AIRequestRec :=
  { userId := "alice", requestId := "ra", model := "gpt-4", prompt := "pa",
    response := none, tokens := ⟨1, 2, 3⟩, cost := 1, status := "completed",
    errorInfo := none, feature := "other", complexity := "medium",
    language := "en", userPlan := "free", performance := ⟨0, none, none⟩,
    createdAt := 5 }

/-- A completed AIRequest owned by bob. -/
def sampleBobReq : AIRequestRec :=
  { userId := "bob", requestId := "rb", model := "gpt-4", prompt := "pb",
    response := none, tokens := ⟨10, 20, 30⟩, cost := 7, status := "completed",
    errorInfo := none, feature := "other", complexity := "medium",
    language := "en", userPlan := "free", performance := ⟨0, none, none⟩,
    createdAt := 6 }

/-- A pending sales transaction of amount 100. -/
def samplePendingTx : SalesRec :=
  { userId := "u", transactionId := "t1", type := "one_time", plan := "free",
    amount := 100, currency := "USD", status := "pending",
    paymentMethod := none, refundAmount := none, createdAt := 0 }

/-- Claim C1 — evidence of the divergence. The spec says a standard-role
caller's Stats result never contains another actor's records and that a
caller-supplied actor filter is overridden by the resolved scope. In the
code the filter object is `{ userId: req.user.id, ...req.query }`, so the
spread of the caller's query overrides the scope: caller alice, supplying
`userId=bob`, receives stats aggregated over bob's single record (count 1,
bob's cost 7) while her own record is excluded. -/
theorem c1_caller_filter_overrides_scope :
    (aiStatsEndpoint "alice" { userId := some "bob" } [sampleAliceReq, sampleBobReq]).totalRequests = 1 ∧
    (aiStatsEndpoint "alice" { userId := some "bob" } [sampleAliceReq, sampleBobReq]).totalTokens = 30 ∧
    sampleBobReq.userId ≠ "alice" ∧ sampleBobReq.tokens.total = 30 ∧
    sampleAliceReq.tokens.total ≠ 30 := by
  decide

/-- Claim C2 — counterexample. getSalesStats sums `$amount` over every
matching record with no status restriction: a single pending transaction of
amount 100 yields totalRevenue 100 (an empty store yields 0), so a
non-completed record contributes to a revenue figure. -/
theorem c2_counterexample_pending_revenue :
    samplePendingTx.status ≠ "completed" ∧
    (getSalesStats {} [samplePendingTx]).totalRevenue = 100 ∧
    (getSalesStats {} ([] : List SalesRec)).totalRevenue = 0 := by
  refine ⟨by decide, ?_, ?_⟩ <;>
    simp [getSalesStats, salesMatch, optEq, optEqO, dateLB, dateUB,
      samplePendingTx, zeroSalesStats]

/-- If `p` implies `q` pointwise, pre-filtering by `q` does not change a
filter by `p`. -/
theorem filter_filter_subsumed {α : Type} (p q : α → Bool)
    (h : ∀ a, p a = true → q a = true) (l : List α) :
    (l.filter q).filter p = l.filter p := by
  induction l with
  | nil => rfl
  | cons x xs ih =>
    by_cases hp : p x = true
    · have hq := h x hp
      simp [List.filter_cons, hp, hq, ih]
    · have hp' : p x = false := by
        cases hpx : p x
        · rfl
        · exact absurd hpx hp
      cases hqx : q x <;> simp [List.filter_cons, hp', hqx, ih]

/-- Claim C2 (amended): the dedicated revenue aggregations — revenue by
plan, the top-revenue ranking, and MRR — count only status=completed
records (filtering the store to completed records first changes nothing),
while the sales Stats totalRevenue sums the amounts of all records matching
the caller's filter set regardless of status. -/
theorem c2_amended_revenue_status_handling :
    (∀ (f : SalesFilters) (s : List SalesRec),
      getRevenueByPlan f s =
        getRevenueByPlan f (s.filter (fun r => r.status == "completed"))) ∧
    (∀ (n : Nat) (s : List SalesRec),
      getTopRevenue n s =
        getTopRevenue n (s.filter (fun r => r.status == "completed"))) ∧
    (∀ (lo hi : Nat) (s : List SalesRec),
      getMRRWindow lo hi s =
        getMRRWindow lo hi (s.filter (fun r => r.status == "completed"))) ∧
    (∀ (f : SalesFilters) (s : List SalesRec),
      (getSalesStats f s).totalRevenue =
        ((s.filter (salesMatch f)).map (fun r => r.amount)).sum) := by
  refine ⟨?_, ?_, ?_, ?_⟩
  · intro f s
    unfold getRevenueByPlan
    rw [filter_filter_subsumed _ _ (fun a ha => ?_) s]
    simp only [Bool.and_eq_true] at ha
    exact ha.1.1
  · intro n s
    unfold getTopRevenue
    rw [filter_filter_subsumed _ _ (fun a ha => ha) s]
  · intro lo hi s
    unfold getMRRWindow
    rw [filter_filter_subsumed _ _ (fun a ha => ?_) s]
    simp only [Bool.and_eq_true] at ha
    exact ha.1.1.1
  · intro f s
    simp only [getSalesStats]
    split
    next h =>
      rw [List.isEmpty_iff.mp h]
      rfl
    next => rfl

/-- Claim C8: a Stats query whose filter set matches zero records returns
the well-defined fallback object in which every numeric field is 0 (for
AIRequest stats, performance stats — whatever the store's percentile
primitive would do — and sales stats); no ratio is computed at all on this
path, so no zero-denominator error can arise. -/
theorem c8_empty_match_zero_stats (f : AIFilters) (s : List AIRequestRec)
    (pctl : Nat → List Rat → Rat) (pf : PerfFilters) (ps : List PerfRec)
    (sf : SalesFilters) (ss : List SalesRec)
    (hai : s.filter (aiMatch f) = [])
    (hperf : ps.filter (perfMatch pf) = [])
    (hsales : ss.filter (salesMatch sf) = []) :
    getStats f s = zeroAIStats ∧
    getPerformanceStats pctl pf ps = zeroPerfStats ∧
    getSalesStats sf ss = zeroSalesStats := by
  refine ⟨?_, ?_, ?_⟩
  · simp [getStats, hai]
  · simp [getPerformanceStats, hperf]
  · simp [getSalesStats, hsales]

/-- Witness for c8_empty_match_zero_stats: a userId filter for alice over
stores holding only bob's records matches nothing and yields the zero
objects. -/
def sampleBobPerf : PerfRec :=
  { service := "auth", endpoint := "/login", method := "POST",
    userId := some "bob", requestId := "pr1", statusCode := 200,
    responseTime := 100, requestSize := 0, responseSize := 0,
    sysCpu := none, sysMem := none, sysDisk := none, timestamp := 4 }

theorem c8_empty_match_zero_stats_witness :
    getStats { userId := some "alice" } [sampleBobReq] = zeroAIStats ∧
    getPerformanceStats (fun _ _ => 0) { userId := some "alice" } [sampleBobPerf] = zeroPerfStats ∧
    getSalesStats { userId := some "alice" } [samplePendingTx] = zeroSalesStats :=
  c8_empty_match_zero_stats { userId := some "alice" } [sampleBobReq]
    (fun _ _ => 0) { userId := some "alice" } [sampleBobPerf]
    { userId := some "alice" } [samplePendingTx]
    (by decide) (by decide) (by decide)

/-- Claim C7: for a key whose value is numeric in both Stats results, the
comparison route reports `(current − previous) / previous × 100`, with the
zero-previous convention: 100 when current > 0, else 0. -/
theorem c7_percentage_change_formula (current previous : JObj) (k : String)
    (c p : Rat)
    (hc : lookupJ current k = some (JVal.num c))
    (hp : lookupJ previous k = some (JVal.num p)) :
    lookupJ (calculatePercentageChange current previous) k =
      some (JVal.num (if p = 0 then (if c > 0 then 100 else 0)
                      else (c - p) / p * 100)) := by
  show lookupJ (calculatePercentageChange current previous) k = some (JVal.num (pctChange c p))
  induction current with
  | nil => simp [lookupJ] at hc
  | cons kv tl ih =>
    obtain ⟨k0, v0⟩ := kv
    cases hk : (k0 == k) with
    | true =>
      have hkk : k0 = k := by simpa using hk
      subst hkk
      have hv0 : v0 = JVal.num c := by
        simpa [lookupJ, List.find?, hk] using hc
      subst hv0
      simp only [lookupJ] at hp
      simp [calculatePercentageChange, List.filterMap_cons, hp, lookupJ, List.find?]
    | false =>
      have hc' : lookupJ tl k = some (JVal.num c) := by
        simpa [lookupJ, List.find?, hk] using hc
      have ih' := ih hc'
      simp only [calculatePercentageChange, List.filterMap_cons] at ih' ⊢
      cases v0 with
      | num c0 =>
        cases hlp : lookupJ previous k0 with
        | none => simpa using ih'
        | some w =>
          cases w with
          | num p0 => simpa [lookupJ, List.find?, hk] using ih'
          | str s0 => simpa using ih'
          | null => simpa using ih'
      | str s0 => simpa using ih'
      | null => simpa using ih'

/-- Witness for c7_percentage_change_formula at the three sample points of
the claim: previous 0 / current 5 gives 100, previous 0 / current 0 gives
0, previous 50 / current 25 gives -50. -/
theorem c7_percentage_change_formula_witness :
    lookupJ (calculatePercentageChange [("a", JVal.num 5)] [("a", JVal.num 0)]) "a" =
      some (JVal.num 100) ∧
    lookupJ (calculatePercentageChange [("b", JVal.num 0)] [("b", JVal.num 0)]) "b" =
      some (JVal.num 0) ∧
    lookupJ (calculatePercentageChange [("c", JVal.num 25)] [("c", JVal.num 50)]) "c" =
      some (JVal.num (-50)) := by
  refine ⟨?_, ?_, ?_⟩
  · have h := c7_percentage_change_formula [("a", JVal.num 5)] [("a", JVal.num 0)]
      "a" 5 0 (by simp [lookupJ, List.find?]) (by simp [lookupJ, List.find?])
    rw [h]; norm_num
  · have h := c7_percentage_change_formula [("b", JVal.num 0)] [("b", JVal.num 0)]
      "b" 0 0 (by simp [lookupJ, List.find?]) (by simp [lookupJ, List.find?])
    rw [h]; norm_num
  · have h := c7_percentage_change_formula [("c", JVal.num 25)] [("c", JVal.num 50)]
      "c" 25 50 (by simp [lookupJ, List.find?]) (by simp [lookupJ, List.find?])
    rw [h]; norm_num

/-- Claim C3: starting from a store with no record under the body's
requestId, a first successful create followed by a second create with the
same requestId makes the second call fail with the 409 conflict result,
leaves the store exactly as the first call left it (the first record is
unchanged), and leaves the registry exactly as the first call left it (the
ai_requests_total counter for the first record's labels is not incremented
again). -/
theorem c3_second_create_conflicts
    (now1 now2 : Nat) (caller1 caller2 : String) (b : TrackBody)
    (s : List AIRequestRec) (g : List Mutation)
    (hv : validTrackBody b = true)
    (hfresh : s.any (fun r => r.requestId == b.requestId) = false) :
    (trackAI now2 caller2 b true (trackAI now1 caller1 b true s g).store
      (trackAI now1 caller1 b true s g).registry).result = TrackResult.conflict ∧
    (trackAI now2 caller2 b true (trackAI now1 caller1 b true s g).store
      (trackAI now1 caller1 b true s g).registry).store =
      (trackAI now1 caller1 b true s g).store ∧
    (trackAI now2 caller2 b true (trackAI now1 caller1 b true s g).store
      (trackAI now1 caller1 b true s g).registry).registry =
      (trackAI now1 caller1 b true s g).registry := by
  have h1 : (trackAI now1 caller1 b true s g).store =
      s ++ [preSave (newAIRequest now1 caller1 b)] := by
    simp [trackAI, hv, hfresh]
  have hdup : ((trackAI now1 caller1 b true s g).store).any
      (fun r => r.requestId == b.requestId) = true := by
    rw [h1]
    simp [List.any_append, preSave, newAIRequest]
  refine ⟨?_, ?_, ?_⟩ <;>
  · revert hdup
    generalize (trackAI now1 caller1 b true s g).store = S
    generalize (trackAI now1 caller1 b true s g).registry = G
    intro hdup
    simp [trackAI, hv, hdup]

/-- Witness for c3_second_create_conflicts: a concrete valid body on an
empty store. -/
def sampleTrackBody : TrackBody :=
  { requestId := "r1", model := "gpt-4", prompt := "hello" }

theorem c3_second_create_conflicts_witness :
    (trackAI 2 "u" sampleTrackBody true (trackAI 1 "u" sampleTrackBody true [] []).store
      (trackAI 1 "u" sampleTrackBody true [] []).registry).result = TrackResult.conflict ∧
    (trackAI 2 "u" sampleTrackBody true (trackAI 1 "u" sampleTrackBody true [] []).store
      (trackAI 1 "u" sampleTrackBody true [] []).registry).store =
      (trackAI 1 "u" sampleTrackBody true [] []).store ∧
    (trackAI 2 "u" sampleTrackBody true (trackAI 1 "u" sampleTrackBody true [] []).store
      (trackAI 1 "u" sampleTrackBody true [] []).registry).registry =
      (trackAI 1 "u" sampleTrackBody true [] []).registry :=
  c3_second_create_conflicts 1 2 "u" "u" sampleTrackBody [] []
    (by decide) (by decide)

/-- A pending AIRequest owned by u with performance.endTime unset. -/
def sampleOpenReq : AIRequestRec :=
  { userId := "u", requestId := "r1", model := "gpt-4", prompt := "p",
    response := none, tokens := ⟨0, 0, 0⟩, cost := 0, status := "pending",
    errorInfo := none, feature := "other", complexity := "medium",
    language := "en", userPlan := "free", performance := ⟨3, none, none⟩,
    createdAt := 3 }

/-- A processing AIRequest owned by u whose performance.endTime is already
set to 5. -/
def samplePresetReq : AIRequestRec :=
  { userId := "u", requestId := "r1", model := "gpt-4", prompt := "p",
    response := none, tokens := ⟨0, 0, 0⟩, cost := 0, status := "processing",
    errorInfo := none, feature := "other", complexity := "medium",
    language := "en", userPlan := "free", performance := ⟨3, some 5, some 2⟩,
    createdAt := 3 }

/-- Claim C4 — counterexample. The claim says every terminal status
(completed, failed, or cancelled) sets performance.endTime when it is
unset, and that an already-set endTime is left unchanged. In the code the
test is `status === 'completed' || status === 'failed'` with no unset
check: an update to cancelled leaves an unset endTime unset, and an update
to completed at time 10 overwrites an endTime already set to 5. -/
theorem c4_counterexample_cancelled_and_overwrite :
    ((updateAI 10 "u" "r1" { status := "cancelled" } true [sampleOpenReq] []).saved.map
      (fun r => r.performance.endTime)) = some none ∧
    ((updateAI 10 "u" "r1" { status := "completed" } true [samplePresetReq] []).saved.map
      (fun r => r.performance.endTime)) = some (some 10) ∧
    samplePresetReq.performance.endTime = some 5 := by
  decide

/-- Claim C4 (amended): on a successful update of a found record, a new
status of completed or failed unconditionally sets performance.endTime to
the current time and duration to endTime minus startTime (overwriting any
previously set endTime), while a new status of processing or cancelled
leaves the performance sub-document untouched. -/
theorem c4_amended_end_time_on_completed_failed
    (now : Nat) (caller rid : String) (b : UpdateBody)
    (s : List AIRequestRec) (g : List Mutation) (r0 : AIRequestRec)
    (hv : validUpdateBody b = true)
    (hf : findAI rid caller s = some r0) :
    ((b.status == "completed" || b.status == "failed") = true →
      (updateAI now caller rid b true s g).saved.map (fun r => r.performance) =
        some { startTime := r0.performance.startTime, endTime := some now,
               duration := some ((now : Int) - (r0.performance.startTime : Int)) }) ∧
    ((b.status == "processing" || b.status == "cancelled") = true →
      (updateAI now caller rid b true s g).saved.map (fun r => r.performance) =
        some r0.performance) := by
  constructor
  · intro h
    simp [updateAI, hv, hf, applyUpdate, preSave, h]
  · intro h
    have h' : b.status = "processing" ∨ b.status = "cancelled" := by
      rcases Bool.or_eq_true_iff.mp h with h' | h'
      · exact Or.inl (by simpa using h')
      · exact Or.inr (by simpa using h')
    rcases h' with h' | h' <;>
      simp [updateAI, hv, hf, applyUpdate, preSave, h']

/-- Witness for c4_amended_end_time_on_completed_failed: a completed update
at time 10 on a record with startTime 3 and preset endTime 5, and a
cancelled update on the same record. -/
theorem c4_amended_end_time_witness :
    (updateAI 10 "u" "r1" { status := "completed" } true [samplePresetReq] []).saved.map
      (fun r => r.performance) =
      some { startTime := samplePresetReq.performance.startTime, endTime := some 10,
             duration := some ((10 : Int) - (samplePresetReq.performance.startTime : Int)) } ∧
    (updateAI 10 "u" "r1" { status := "cancelled" } true [samplePresetReq] []).saved.map
      (fun r => r.performance) = some samplePresetReq.performance :=
  ⟨(c4_amended_end_time_on_completed_failed 10 "u" "r1" { status := "completed" }
      [samplePresetReq] [] samplePresetReq (by decide) (by decide)).1 (by decide),
   (c4_amended_end_time_on_completed_failed 10 "u" "r1" { status := "cancelled" }
      [samplePresetReq] [] samplePresetReq (by decide) (by decide)).2 (by decide)⟩

/-- Claim C6: whenever an update call persists a record with new status
completed, the persisted record satisfies tokens.total = tokens.input +
tokens.output (the pre-save hook recomputes it) and performance.duration =
performance.endTime - performance.startTime, both exactly. -/
theorem c6_completed_token_and_duration_invariants
    (now : Nat) (caller rid : String) (b : UpdateBody) (ok : Bool)
    (s : List AIRequestRec) (g : List Mutation) (r' : AIRequestRec)
    (hstatus : b.status = "completed")
    (hsaved : (updateAI now caller rid b ok s g).saved = some r') :
    r'.tokens.total = r'.tokens.input + r'.tokens.output ∧
    ∀ e, r'.performance.endTime = some e →
      r'.performance.duration = some ((e : Int) - (r'.performance.startTime : Int)) := by
  have hv : validUpdateBody b = true := by
    unfold validUpdateBody
    rw [hstatus]
    decide
  rw [updateAI] at hsaved
  rw [hv] at hsaved
  simp only [if_true] at hsaved
  cases hf : findAI rid caller s with
  | none =>
    rw [hf] at hsaved
    simp at hsaved
  | some r0 =>
    rw [hf] at hsaved
    cases ok with
    | false => simp at hsaved
    | true =>
      simp only [if_true] at hsaved
      have hr : r' = applyUpdate now b r0 := by
        simpa using hsaved.symm
      subst hr
      constructor
      · simp [applyUpdate, preSave]
      · intro e he
        simp [applyUpdate, preSave, hstatus] at he ⊢
        omega

/-- A completed-status update body carrying a tokens object whose total
field (99) disagrees with input + output, as a caller may send. -/
def sampleCompleteBody : UpdateBody :=
  { status := "completed", tokens := some ⟨4, 6, 99⟩ }

/-- Witness for c6_completed_token_and_duration_invariants: the persisted
record of a concrete completed update has total 4 + 6 (the caller's 99 is
recomputed away) and duration endTime - startTime = 10 - 3 = 7. -/
theorem c6_completed_invariants_witness :
    (applyUpdate 10 sampleCompleteBody sampleOpenReq).tokens.total =
      (applyUpdate 10 sampleCompleteBody sampleOpenReq).tokens.input +
        (applyUpdate 10 sampleCompleteBody sampleOpenReq).tokens.output ∧
    (applyUpdate 10 sampleCompleteBody sampleOpenReq).performance.duration = some 7 := by
  have h := c6_completed_token_and_duration_invariants 10 "u" "r1" sampleCompleteBody
    true [sampleOpenReq] [] (applyUpdate 10 sampleCompleteBody sampleOpenReq)
    (by decide) (by decide)
  refine ⟨h.1, ?_⟩
  have h2 := h.2 10 (by decide)
  rw [h2]
  decide

/-- On every non-created outcome of POST /ai-tracking/track, neither the
store nor the registry changes. -/
theorem trackAI_not_created (now : Nat) (caller : String) (b : TrackBody)
    (ok : Bool) (s : List AIRequestRec) (g : List Mutation)
    (h : (trackAI now caller b ok s g).result.isCreated = false) :
    (trackAI now caller b ok s g).registry = g ∧
    (trackAI now caller b ok s g).store = s := by
  cases h1 : validTrackBody b with
  | false => simp [trackAI, h1]
  | true =>
    cases h2 : s.any (fun r => r.requestId == b.requestId) with
    | true => simp [trackAI, h1, h2]
    | false =>
      cases ok with
      | false => simp [trackAI, h1, h2]
      | true => simp [trackAI, h1, h2, TrackResult.isCreated] at h

/-- A created outcome of POST /ai-tracking/track implies the durable write
succeeded, the store grew by exactly the new record, and the registry grew
by exactly one ai_requests_total increment. -/
theorem trackAI_created (now : Nat) (caller : String) (b : TrackBody)
    (ok : Bool) (s : List AIRequestRec) (g : List Mutation)
    (h : (trackAI now caller b ok s g).result.isCreated = true) :
    ok = true ∧
    (trackAI now caller b ok s g).store = s ++ [preSave (newAIRequest now caller b)] ∧
    (trackAI now caller b ok s g).registry =
      g ++ [Mutation.aiRequest b.model "pending" (b.feature.getD "other") (b.userPlan.getD "free")] := by
  cases h1 : validTrackBody b with
  | false => simp [trackAI, h1, TrackResult.isCreated] at h
  | true =>
    cases h2 : s.any (fun r => r.requestId == b.requestId) with
    | true => simp [trackAI, h1, h2, TrackResult.isCreated] at h
    | false =>
      cases ok with
      | false => simp [trackAI, h1, h2, TrackResult.isCreated] at h
      | true => simp [trackAI, h1, h2]

/-- On every outcome of the update route that persists nothing, neither the
store nor the registry changes. -/
theorem updateAI_saved_none (now : Nat) (caller rid : String) (b : UpdateBody)
    (ok : Bool) (s : List AIRequestRec) (g : List Mutation)
    (h : (updateAI now caller rid b ok s g).saved = none) :
    (updateAI now caller rid b ok s g).registry = g ∧
    (updateAI now caller rid b ok s g).store = s := by
  cases h1 : validUpdateBody b with
  | false => simp [updateAI, h1]
  | true =>
    cases hf : findAI rid caller s with
    | none => simp [updateAI, h1, hf]
    | some r0 =>
      cases ok with
      | false => simp [updateAI, h1, hf]
      | true => simp [updateAI, h1, hf] at h

/-- A persisted update implies the durable write succeeded and the registry
grew by exactly the mutation set for the saved record. -/
theorem updateAI_saved_some (now : Nat) (caller rid : String) (b : UpdateBody)
    (ok : Bool) (s : List AIRequestRec) (g : List Mutation) (r3 : AIRequestRec)
    (h : (updateAI now caller rid b ok s g).saved = some r3) :
    ok = true ∧
    (updateAI now caller rid b ok s g).registry = g ++ updateMutations b r3 := by
  cases h1 : validUpdateBody b with
  | false => simp [updateAI, h1] at h
  | true =>
    cases hf : findAI rid caller s with
    | none => simp [updateAI, h1, hf] at h
    | some r0 =>
      cases ok with
      | false => simp [updateAI, h1, hf] at h
      | true =>
        have hr : r3 = applyUpdate now b r0 := by
          simpa [updateAI, h1, hf] using h.symm
        subst hr
        simp [updateAI, h1, hf]

/-- On every non-created outcome of POST /analytics/sales/track, neither
the store nor the registry changes. -/
theorem trackSales_not_created (now : Nat) (caller : String) (b : SalesBody)
    (ok : Bool) (s : List SalesRec) (g : List Mutation)
    (h : (trackSales now caller b ok s g).result.isCreated = false) :
    (trackSales now caller b ok s g).registry = g ∧
    (trackSales now caller b ok s g).store = s := by
  cases h1 : validSalesBody b with
  | false => simp [trackSales, h1]
  | true =>
    cases h2 : s.any (fun r => r.transactionId == b.transactionId) with
    | true => simp [trackSales, h1, h2]
    | false =>
      cases ok with
      | false => simp [trackSales, h1, h2]
      | true => simp [trackSales, h1, h2, TrackResult.isCreated] at h

/-- A created outcome of POST /analytics/sales/track implies the durable
write succeeded, the store grew by the new transaction, and the registry
grew by exactly the sales mutation set. -/
theorem trackSales_created (now : Nat) (caller : String) (b : SalesBody)
    (ok : Bool) (s : List SalesRec) (g : List Mutation)
    (h : (trackSales now caller b ok s g).result.isCreated = true) :
    ok = true ∧
    (trackSales now caller b ok s g).store = s ++ [newSalesRec now caller b] ∧
    (trackSales now caller b ok s g).registry = g ++ salesMutations b := by
  cases h1 : validSalesBody b with
  | false => simp [trackSales, h1, TrackResult.isCreated] at h
  | true =>
    cases h2 : s.any (fun r => r.transactionId == b.transactionId) with
    | true => simp [trackSales, h1, h2, TrackResult.isCreated] at h
    | false =>
      cases ok with
      | false => simp [trackSales, h1, h2, TrackResult.isCreated] at h
      | true => simp [trackSales, h1, h2]

/-- On every non-created outcome of POST /performance/track, neither the
store nor the registry changes. -/
theorem trackPerformance_not_created (now : Nat) (uid : Option String)
    (rid : String) (osSys : Rat × Rat × Rat) (b : PerfBody) (ok : Bool)
    (s : List PerfRec) (g : List Mutation)
    (h : (trackPerformance now uid rid osSys b ok s g).result.isCreated = false) :
    (trackPerformance now uid rid osSys b ok s g).registry = g ∧
    (trackPerformance now uid rid osSys b ok s g).store = s := by
  cases h1 : validPerfBody b with
  | false => simp [trackPerformance, h1]
  | true =>
    cases ok with
    | false => simp [trackPerformance, h1]
    | true => simp [trackPerformance, h1, TrackResult.isCreated] at h

/-- A created outcome of POST /performance/track implies the durable write
succeeded, the store grew by the new sample, and the registry grew by
exactly the performance mutation set. -/
theorem trackPerformance_created (now : Nat) (uid : Option String)
    (rid : String) (osSys : Rat × Rat × Rat) (b : PerfBody) (ok : Bool)
    (s : List PerfRec) (g : List Mutation)
    (h : (trackPerformance now uid rid osSys b ok s g).result.isCreated = true) :
    ok = true ∧
    (trackPerformance now uid rid osSys b ok s g).store = s ++ [newPerfRec now uid rid osSys b] ∧
    (trackPerformance now uid rid osSys b ok s g).registry = g ++ perfMutations b := by
  cases h1 : validPerfBody b with
  | false => simp [trackPerformance, h1, TrackResult.isCreated] at h
  | true =>
    cases ok with
    | false => simp [trackPerformance, h1, TrackResult.isCreated] at h
    | true => simp [trackPerformance, h1]

/-- Claim C9: for each ingestion or update handler, a successful call
mutates the registry by exactly its one mutation set after the durable
write succeeded, and every error outcome (validation failure, duplicate
natural key, durable-write failure, not-found) leaves the registry — and
the store — untouched. -/
theorem c9_registry_mutations_tied_to_write
    (now : Nat) (caller : String) (uid : Option String) (rid rid4 : String)
    (osSys : Rat × Rat × Rat) (ok : Bool)
    (b1 : TrackBody) (b2 : UpdateBody) (b3 : SalesBody) (b4 : PerfBody)
    (s1 : List AIRequestRec) (s3 : List SalesRec) (s4 : List PerfRec)
    (g : List Mutation) :
    ((trackAI now caller b1 ok s1 g).result.isCreated = false →
      (trackAI now caller b1 ok s1 g).registry = g ∧
      (trackAI now caller b1 ok s1 g).store = s1) ∧
    ((trackAI now caller b1 ok s1 g).result.isCreated = true →
      ok = true ∧
      (trackAI now caller b1 ok s1 g).store = s1 ++ [preSave (newAIRequest now caller b1)] ∧
      (trackAI now caller b1 ok s1 g).registry =
        g ++ [Mutation.aiRequest b1.model "pending" (b1.feature.getD "other") (b1.userPlan.getD "free")]) ∧
    ((updateAI now caller rid b2 ok s1 g).saved = none →
      (updateAI now caller rid b2 ok s1 g).registry = g ∧
      (updateAI now caller rid b2 ok s1 g).store = s1) ∧
    (∀ r3, (updateAI now caller rid b2 ok s1 g).saved = some r3 →
      ok = true ∧
      (updateAI now caller rid b2 ok s1 g).registry = g ++ updateMutations b2 r3) ∧
    ((trackSales now caller b3 ok s3 g).result.isCreated = false →
      (trackSales now caller b3 ok s3 g).registry = g ∧
      (trackSales now caller b3 ok s3 g).store = s3) ∧
    ((trackSales now caller b3 ok s3 g).result.isCreated = true →
      ok = true ∧
      (trackSales now caller b3 ok s3 g).store = s3 ++ [newSalesRec now caller b3] ∧
      (trackSales now caller b3 ok s3 g).registry = g ++ salesMutations b3) ∧
    ((trackPerformance now uid rid4 osSys b4 ok s4 g).result.isCreated = false →
      (trackPerformance now uid rid4 osSys b4 ok s4 g).registry = g ∧
      (trackPerformance now uid rid4 osSys b4 ok s4 g).store = s4) ∧
    ((trackPerformance now uid rid4 osSys b4 ok s4 g).result.isCreated = true →
      ok = true ∧
      (trackPerformance now uid rid4 osSys b4 ok s4 g).store = s4 ++ [newPerfRec now uid rid4 osSys b4] ∧
      (trackPerformance now uid rid4 osSys b4 ok s4 g).registry = g ++ perfMutations b4) :=
  ⟨trackAI_not_created now caller b1 ok s1 g,
   trackAI_created now caller b1 ok s1 g,
   updateAI_saved_none now caller rid b2 ok s1 g,
   fun r3 => updateAI_saved_some now caller rid b2 ok s1 g r3,
   trackSales_not_created now caller b3 ok s3 g,
   trackSales_created now caller b3 ok s3 g,
   trackPerformance_not_created now uid rid4 osSys b4 ok s4 g,
   trackPerformance_created now uid rid4 osSys b4 ok s4 g⟩

/-- A track body rejected by validation (empty requestId). -/
def sampleBadTrackBody : TrackBody :=
  { requestId := "", model := "gpt-4", prompt := "p" }

/-- A valid completed subscription transaction body. -/
def sampleSalesBody : SalesBody :=
  { transactionId := "t9", type := "subscription", amount := 50, status := "completed" }

/-- A sales body rejected by validation (empty transactionId). -/
def sampleBadSalesBody : SalesBody :=
  { transactionId := "", type := "subscription", amount := 50, status := "completed" }

/-- A valid performance sample body. -/
def samplePerfBody : PerfBody :=
  { service := "auth", endpoint := "/login", method := "POST",
    statusCode := 500, responseTime := 2500 }

/-- A performance body rejected by validation (statusCode below 100). -/
def sampleBadPerfBody : PerfBody :=
  { service := "auth", endpoint := "/login", method := "POST",
    statusCode := 50, responseTime := 2500 }

/-- Witness for c9_registry_mutations_tied_to_write: concrete error calls
leave store and registry unchanged; concrete successful calls append
exactly the mutation set of the call. -/
theorem c9_registry_mutations_witness :
    ((trackAI 1 "u" sampleBadTrackBody true [] []).registry = [] ∧
     (trackAI 1 "u" sampleBadTrackBody true [] []).store = []) ∧
    (true = true ∧
     (trackAI 1 "u" sampleTrackBody true [] []).store =
       [] ++ [preSave (newAIRequest 1 "u" sampleTrackBody)] ∧
     (trackAI 1 "u" sampleTrackBody true [] []).registry =
       [] ++ [Mutation.aiRequest sampleTrackBody.model "pending"
         (sampleTrackBody.feature.getD "other") (sampleTrackBody.userPlan.getD "free")]) ∧
    ((updateAI 1 "u" "rX" sampleCompleteBody true [] []).registry = [] ∧
     (updateAI 1 "u" "rX" sampleCompleteBody true [] []).store = []) ∧
    (true = true ∧
     (updateAI 10 "u" "r1" sampleCompleteBody true [sampleOpenReq] []).registry =
       [] ++ updateMutations sampleCompleteBody (applyUpdate 10 sampleCompleteBody sampleOpenReq)) ∧
    ((trackSales 1 "u" sampleBadSalesBody true [] []).registry = [] ∧
     (trackSales 1 "u" sampleBadSalesBody true [] []).store = []) ∧
    (true = true ∧
     (trackSales 1 "u" sampleSalesBody true [] []).store = [] ++ [newSalesRec 1 "u" sampleSalesBody] ∧
     (trackSales 1 "u" sampleSalesBody true [] []).registry = [] ++ salesMutations sampleSalesBody) ∧
    ((trackPerformance 1 none "p1" (0, 0, 0) sampleBadPerfBody true [] []).registry = [] ∧
     (trackPerformance 1 none "p1" (0, 0, 0) sampleBadPerfBody true [] []).store = []) ∧
    (true = true ∧
     (trackPerformance 1 none "p1" (0, 0, 0) samplePerfBody true [] []).store =
       [] ++ [newPerfRec 1 none "p1" (0, 0, 0) samplePerfBody] ∧
     (trackPerformance 1 none "p1" (0, 0, 0) samplePerfBody true [] []).registry =
       [] ++ perfMutations samplePerfBody) :=
  ⟨(c9_registry_mutations_tied_to_write 1 "u" none "rX" "p1" (0, 0, 0) true
      sampleBadTrackBody sampleCompleteBody sampleBadSalesBody sampleBadPerfBody
      [] [] [] []).1 (by decide),
   (c9_registry_mutations_tied_to_write 1 "u" none "rX" "p1" (0, 0, 0) true
      sampleTrackBody sampleCompleteBody sampleBadSalesBody sampleBadPerfBody
      [] [] [] []).2.1 (by decide),
   (c9_registry_mutations_tied_to_write 1 "u" none "rX" "p1" (0, 0, 0) true
      sampleBadTrackBody sampleCompleteBody sampleBadSalesBody sampleBadPerfBody
      [] [] [] []).2.2.1 (by decide),
   (c9_registry_mutations_tied_to_write 10 "u" none "r1" "p1" (0, 0, 0) true
      sampleBadTrackBody sampleCompleteBody sampleBadSalesBody sampleBadPerfBody
      [sampleOpenReq] [] [] []).2.2.2.1
      (applyUpdate 10 sampleCompleteBody sampleOpenReq) (by decide),
   (c9_registry_mutations_tied_to_write 1 "u" none "rX" "p1" (0, 0, 0) true
      sampleBadTrackBody sampleCompleteBody sampleBadSalesBody sampleBadPerfBody
      [] [] [] []).2.2.2.2.1 (by decide),
   (c9_registry_mutations_tied_to_write 1 "u" none "rX" "p1" (0, 0, 0) true
      sampleBadTrackBody sampleCompleteBody sampleSalesBody sampleBadPerfBody
      [] [] [] []).2.2.2.2.2.1 (by decide),
   (c9_registry_mutations_tied_to_write 1 "u" none "rX" "p1" (0, 0, 0) true
      sampleBadTrackBody sampleCompleteBody sampleBadSalesBody sampleBadPerfBody
      [] [] [] []).2.2.2.2.2.2.1 (by decide),
   (c9_registry_mutations_tied_to_write 1 "u" none "rX" "p1" (0, 0, 0) true
      sampleBadTrackBody sampleCompleteBody sampleBadSalesBody samplePerfBody
      [] [] [] []).2.2.2.2.2.2.2 (by decide)⟩

/-- Blanking prompt/response commutes with the history filter, which never
reads those fields. -/
theorem filter_histMatch_erase (c : String) (q : HistoryQuery) (l : List AIRequestRec) :
    (l.map eraseSensitive).filter (histMatch c q) =
      (l.filter (histMatch c q)).map eraseSensitive := by
  induction l with
  | nil => rfl
  | cons x xs ih =>
    simp only [List.map_cons, List.filter_cons]
    have hx : histMatch c q (eraseSensitive x) = histMatch c q x := rfl
    rw [hx]
    cases histMatch c q x <;> simp [ih]

/-- Blanking prompt/response commutes with sorted insertion, which compares
only createdAt. -/
theorem insertDesc_erase (r : AIRequestRec) (l : List AIRequestRec) :
    insertDesc (eraseSensitive r) (l.map eraseSensitive) =
      (insertDesc r l).map eraseSensitive := by
  induction l with
  | nil => rfl
  | cons x xs ih =>
    simp only [List.map_cons, insertDesc]
    have hc : (eraseSensitive r).createdAt = r.createdAt := rfl
    have hx : (eraseSensitive x).createdAt = x.createdAt := rfl
    rw [hc, hx]
    by_cases h : r.createdAt > x.createdAt
    · simp [h]
    · simp [h, ih]

/-- Blanking prompt/response commutes with the createdAt sort. -/
theorem sortDesc_erase (l : List AIRequestRec) :
    sortDesc (l.map eraseSensitive) = (sortDesc l).map eraseSensitive := by
  induction l with
  | nil => rfl
  | cons x xs ih => simp only [List.map_cons, sortDesc, ih, insertDesc_erase]

/-- The history response is unchanged when every record's prompt/response
texts are blanked before the query runs. -/
theorem historyEndpoint_erase (c : String) (q : HistoryQuery) (s : List AIRequestRec) :
    historyEndpoint c q (s.map eraseSensitive) = historyEndpoint c q s := by
  simp only [historyEndpoint]
  rw [filter_histMatch_erase, sortDesc_erase]
  simp only [HistoryResponse.mk.injEq, List.length_map]
  refine ⟨?_, trivial, trivial, trivial, trivial⟩
  rw [← List.map_drop, ← List.map_take, List.map_map]
  rfl

/-- Claim C10: two stores whose records agree except possibly in the prompt
or response texts produce identical GET /ai-tracking/history responses —
the route projects those fields away with select('-prompt -response'), and
no filter, sort, or pagination step reads them. -/
theorem c10_history_independent_of_prompt_response
    (callerId : String) (q : HistoryQuery) (s1 s2 : List AIRequestRec)
    (h : s1.map eraseSensitive = s2.map eraseSensitive) :
    historyEndpoint callerId q s1 = historyEndpoint callerId q s2 := by
  rw [← historyEndpoint_erase callerId q s1, ← historyEndpoint_erase callerId q s2, h]

/-- A record identical to sampleAliceReq except for its prompt and
response texts. -/
def sampleAliceReqAltered : AIRequestRec :=
  { sampleAliceReq with
    prompt := "a different secret prompt"
    response := some "a stored model response" }

/-- Witness for c10_history_independent_of_prompt_response: two singleton
stores differing only in prompt/response yield the same history response. -/
theorem c10_history_independent_witness :
    historyEndpoint "alice" {} [sampleAliceReq] =
      historyEndpoint "alice" {} [sampleAliceReqAltered] :=
  c10_history_independent_of_prompt_response "alice" {} [sampleAliceReq]
    [sampleAliceReqAltered] (by decide)
